import Mathlib

/-!
Verification of the Interview Transcript Analysis Pipeline (`app.py`).

Shallow embedding conventions:
- Python strings are modelled as `List Char` (`PyStr`); `str.lower` is
  `Char.toLower` mapped over the list (the repository only manipulates
  ASCII label phrases, where the two agree).
- Python floats (segment timestamps, durations, ratios) are modelled as
  exact rationals `ℚ`.  The proportional cut points of
  `segment_conversation` use `int(total * p)` on doubles; this is modelled
  as the exact floor `total * num / 100` in `Nat`.  IEEE double rounding
  can differ from the exact floor at isolated sizes (e.g. `int(90*0.70)`
  is 62 while the exact floor is 63); the partition and non-emptiness
  theorems below depend only on the monotonicity of the cuts and on the
  `max` clamps, which hold under either rounding, and the `N = 20`
  evaluation agrees with the double computation.
- Python dicts whose keys may be absent (the score dict) are modelled as
  structures with `Option` fields (`none` = key absent).
- A `None`-able API response is `Option PyStr`; a raised-and-caught
  exception is modelled by the `Option`/match fallback paths that mirror
  the `try`/`except` structure of the source.
-/

namespace InterviewAnalyzer

abbrev PyStr := List Char

/-- One timestamped transcription segment (`{start, end, text}`).
`segment.get("end", 0)` defaults are modelled by total fields. -/
structure Segment where
  start : ℚ
  «end» : ℚ
  text : PyStr
deriving DecidableEq, Repr

/-- The five-way stage dictionary built by `segment_conversation`. -/
structure Stages where
  introductions : List Segment
  behavioral_questions : List Segment
  technical_questions : List Segment
  candidate_questions : List Segment
  wrap_up : List Segment
deriving DecidableEq, Repr

/-- `intro_end = max(1, int(total_segments * 0.15))` (app.py line 129). -/
def intro_end (total_segments : Nat) : Nat :=
  max 1 (total_segments * 15 / 100)

/-- `behavioral_end = max(2, int(total_segments * 0.45))` (app.py line 130). -/
def behavioral_end (total_segments : Nat) : Nat :=
  max 2 (total_segments * 45 / 100)

/-- `technical_end = max(3, int(total_segments * 0.70))` (app.py line 131). -/
def technical_end (total_segments : Nat) : Nat :=
  max 3 (total_segments * 70 / 100)

/-- `candidate_q_end = max(4, int(total_segments * 0.90))` (app.py line 132). -/
def candidate_q_end (total_segments : Nat) : Nat :=
  max 4 (total_segments * 90 / 100)

/-- `segment_conversation` (app.py lines 121-139).  Python slices
`segments[a:b]` with `0 ≤ a, b` are `(segments.drop a).take (b - a)`;
`segments[:a]` is `take a`, `segments[d:]` is `drop d`; both clamp
out-of-range indices exactly as `take`/`drop` do. -/
def segment_conversation (segments : List Segment) : Stages :=
  let total_segments := segments.length
  if total_segments > 0 then
    let a := intro_end total_segments
    let b := behavioral_end total_segments
    let c := candidate_q_end total_segments
    let t := technical_end total_segments
    { introductions := segments.take a
      behavioral_questions := (segments.drop a).take (b - a)
      technical_questions := (segments.drop b).take (t - b)
      candidate_questions := (segments.drop t).take (c - t)
      wrap_up := segments.drop c }
  else
    { introductions := []
      behavioral_questions := []
      technical_questions := []
      candidate_questions := []
      wrap_up := [] }

/-- The concatenation of the five stages in fixed order. -/
def stagesConcat (st : Stages) : List Segment :=
  st.introductions ++ st.behavioral_questions ++ st.technical_questions ++
    st.candidate_questions ++ st.wrap_up

lemma cuts_mono (n : Nat) :
    intro_end n ≤ behavioral_end n ∧ behavioral_end n ≤ technical_end n ∧
      technical_end n ≤ candidate_q_end n := by
  unfold intro_end behavioral_end technical_end candidate_q_end
  refine ⟨?_, ?_, ?_⟩ <;>
    exact max_le (le_max_of_le_left (by omega))
      (le_max_of_le_right (Nat.div_le_div_right (Nat.mul_le_mul_left _ (by omega))))

lemma take_glue (l : List Segment) (a b : Nat) (h : a ≤ b) :
    l.take a ++ (l.drop a).take (b - a) = l.take b := by
  rw [← List.take_add, Nat.add_sub_cancel' h]

/-- C1: for every list of segments, the five stage lists concatenate, in
fixed stage order, back to the original list exactly (no segment
duplicated or omitted); in particular for the empty input all five
stages are empty. -/
theorem segment_conversation_partitions :
    (∀ segments : List Segment,
        stagesConcat (segment_conversation segments) = segments) ∧
      segment_conversation [] =
        { introductions := [], behavioral_questions := [],
          technical_questions := [], candidate_questions := [], wrap_up := [] } := by
  refine ⟨fun segments => ?_, rfl⟩
  by_cases h : segments.length > 0
  · obtain ⟨hab, hbt, htc⟩ := cuts_mono segments.length
    simp only [segment_conversation, stagesConcat, h, if_pos]
    rw [take_glue segments _ _ hab, take_glue segments _ _ hbt,
      take_glue segments _ _ htc]
    exact List.take_append_drop _ segments
  · have : segments = [] := List.eq_nil_of_length_eq_zero (by omega)
    subst this
    rfl

/-- C10: every non-empty segment list puts at least one segment into the
introductions stage, because `intro_end = max(1, int(0.15 * N)) ≥ 1`. -/
theorem segment_conversation_intro_nonempty
    (segments : List Segment) (h : segments ≠ []) :
    (segment_conversation segments).introductions ≠ [] := by
  have hlen : 0 < segments.length := List.length_pos.mpr h
  simp only [segment_conversation, hlen, if_pos]
  intro hnil
  have := congrArg List.length hnil
  simp only [List.length_take, List.length_nil] at this
  have h1 : 1 ≤ intro_end segments.length := le_max_left _ _
  omega

/-- Witness for C10 at the one-segment list. -/
theorem segment_conversation_intro_nonempty_witness :
    ([⟨0, 0, []⟩] : List Segment) ≠ [] ∧
      (segment_conversation [⟨0, 0, []⟩]).introductions ≠ [] :=
  ⟨by decide, segment_conversation_intro_nonempty [⟨0, 0, []⟩] (by decide)⟩

/-- A concrete 20-segment input used to evaluate the cut points. -/
def sample20 : List Segment := List.replicate 20 ⟨0, 0, []⟩

/-- C7: for N = 20 the cut indices are 3, 9, 14, 18 and the five stage
lengths are 3, 6, 5, 4, 2. -/
theorem segment_conversation_cuts_at_20 :
    intro_end 20 = 3 ∧ behavioral_end 20 = 9 ∧ technical_end 20 = 14 ∧
      candidate_q_end 20 = 18 ∧
      (segment_conversation sample20).introductions.length = 3 ∧
      (segment_conversation sample20).behavioral_questions.length = 6 ∧
      (segment_conversation sample20).technical_questions.length = 5 ∧
      (segment_conversation sample20).candidate_questions.length = 4 ∧
      (segment_conversation sample20).wrap_up.length = 2 := by
  refine ⟨rfl, rfl, rfl, rfl, ?_, ?_, ?_, ?_, ?_⟩ <;> rfl

/-! ## Metrics Extractor (`calculate_talk_ratio`, `extract_call_metrics`) -/

/-- `str.lower()` (ASCII; the pipeline only compares ASCII label/filler
phrases, where Python and `Char.toLower` agree). -/
def pyLower (s : PyStr) : PyStr := s.map Char.toLower

/-- The whitespace characters recognised by `str.split()` / `str.strip()`. -/
def isPySpace (c : Char) : Bool :=
  c = ' ' || c = '\t' || c = '\n' || c = '\r' || c = '\x0b' || c = '\x0c'

/-- `str.split()` with no arguments, structurally recursive on a fuel
argument (each step consumes at least one character, so fuel equal to the
string length is enough): split on runs of whitespace, discarding empty
pieces. -/
def pySplitWsAux : Nat → PyStr → List PyStr
  | 0, _ => []
  | _, [] => []
  | fuel + 1, c :: cs =>
    if isPySpace c then pySplitWsAux fuel cs
    else (c :: cs.takeWhile (fun d => !isPySpace d)) ::
      pySplitWsAux fuel (cs.dropWhile (fun d => !isPySpace d))

/-- `str.split()` with no arguments. -/
def pySplitWs (s : PyStr) : List PyStr := pySplitWsAux s.length s

/-- Non-overlapping occurrences of a non-empty pattern `sub`, scanning
left to right (the semantics of Python `str.count`); after a hit the
scan resumes past the matched pattern.  Fuel equal to the string length
suffices, as each step consumes at least one character. -/
def countOccAux (sub : PyStr) : Nat → PyStr → Nat
  | 0, _ => 0
  | _, [] => 0
  | fuel + 1, c :: cs =>
    if sub.isPrefixOf (c :: cs) then
      1 + countOccAux sub fuel (cs.drop (sub.length - 1))
    else countOccAux sub fuel cs

/-- `s.count(sub)` for Python strings. -/
def pyCount (sub : PyStr) (s : PyStr) : Nat :=
  match sub with
  | [] => s.length + 1
  | _ => countOccAux sub s.length s

/-- The fixed filler lexicon (app.py line 158). -/
def filler_words_list : List PyStr :=
  ["um".data, "uh".data, "like".data, "you know".data, "actually".data,
    "basically".data]

/-- Interviewer (even-index) and candidate (odd-index) accumulated
durations, mirroring the indexed loop of `calculate_talk_ratio`
(app.py lines 143-150). -/
def talkDurations (segments : List Segment) : ℚ × ℚ :=
  segments.enum.foldl
    (fun acc p =>
      let duration := p.2.«end» - p.2.start
      if p.1 % 2 = 0 then (acc.1 + duration, acc.2) else (acc.1, acc.2 + duration))
    (0, 0)

/-- `calculate_talk_ratio` (app.py lines 141-151). -/
def calculate_talk_ratio (segments : List Segment) : ℚ :=
  let d := talkDurations segments
  if d.2 > 0 then d.1 / d.2 else d.1

/-- The metrics record returned by `extract_call_metrics`. -/
structure Metrics where
  word_count : Nat
  duration : ℚ
  talk_ratio : ℚ
  filler_words : Nat
  filler_frequency : ℚ
deriving DecidableEq, Repr

/-- `extract_call_metrics` (app.py lines 153-163).  `segments[-1]["end"]`
is the `end` of the last segment, 0 when the list is empty;
`filler_count / (word_count if word_count > 0 else 1)` is exact rational
division. -/
def extract_call_metrics (transcript : PyStr) (segments : List Segment) : Metrics :=
  let word_count := (pySplitWs transcript).length
  let duration : ℚ := match segments.getLast? with
    | some s => s.«end»
    | none => 0
  let filler_count := (filler_words_list.map (fun w => pyCount w (pyLower transcript))).sum
  { word_count := word_count
    duration := duration
    talk_ratio := calculate_talk_ratio segments
    filler_words := filler_count
    filler_frequency :=
      (filler_count : ℚ) / (if word_count > 0 then (word_count : ℚ) else 1) }

/-- C5: whenever the candidate-assigned (odd-index) total duration is
exactly 0, `calculate_talk_ratio` performs no division and returns the
interviewer (even-index) total duration unchanged. -/
theorem calculate_talk_ratio_zero_candidate (segments : List Segment)
    (h : (talkDurations segments).2 = 0) :
    calculate_talk_ratio segments = (talkDurations segments).1 := by
  simp [calculate_talk_ratio, h]

/-- Witness for C5 at a single-segment list (candidate total is 0). -/
theorem calculate_talk_ratio_zero_candidate_witness :
    (talkDurations [⟨0, 5, []⟩]).2 = 0 ∧
      calculate_talk_ratio [⟨0, 5, []⟩] = (talkDurations [⟨0, 5, []⟩]).1 :=
  ⟨rfl, calculate_talk_ratio_zero_candidate [⟨0, 5, []⟩] rfl⟩

/-- C3 counterexample: for transcript `"umum"` the filler frequency is 2,
which lies outside `[0, 1]` (word_count is 1 but `"um"` occurs twice as a
substring). -/
theorem filler_frequency_above_one :
    (extract_call_metrics ("umum".data) []).filler_frequency = 2 ∧
      ¬ (extract_call_metrics ("umum".data) []).filler_frequency ≤ 1 := by
  have hw : (pySplitWs ("umum".data)).length = 1 := rfl
  have hf : (List.map (fun w => pyCount w (pyLower ("umum".data)))
      filler_words_list).sum = 2 := rfl
  have h : (extract_call_metrics ("umum".data) []).filler_frequency = 2 := by
    simp only [extract_call_metrics, hw, hf]
    norm_num
  exact ⟨h, by rw [h]; norm_num⟩

/-- C3 amended: the filler frequency is always non-negative (the upper
bound 1 does not hold, because fillers are counted as substring
occurrences, which can exceed the whitespace-token count). -/
theorem filler_frequency_nonneg (transcript : PyStr) (segments : List Segment) :
    0 ≤ (extract_call_metrics transcript segments).filler_frequency := by
  unfold extract_call_metrics
  dsimp only
  apply div_nonneg (Nat.cast_nonneg _)
  by_cases h : (pySplitWs transcript).length > 0
  · simp only [h, if_pos]
    exact Nat.cast_nonneg _
  · simp only [h, if_neg]
    norm_num

/-- C4 counterexample: on transcript `"um I like this um"` the extractor
computes `word_count = 5` (not 4) and `filler_frequency = 3/5` (not 3/4). -/
theorem metrics_sample_refutes_claimed_values :
    ¬ ((extract_call_metrics ("um I like this um".data) []).word_count = 4 ∧
        (extract_call_metrics ("um I like this um".data) []).filler_frequency = 3 / 4) := by
  intro h
  have h5 : (extract_call_metrics ("um I like this um".data) []).word_count = 5 := rfl
  have h4 := h.1
  rw [h5] at h4
  exact absurd h4 (by norm_num)

/-- C4 amended: on transcript `"um I like this um"` the extractor computes
`word_count = 5`, `filler_words = 3` (um twice, like once), and
`filler_frequency = 3/5 = 0.6`. -/
theorem metrics_sample_values :
    (extract_call_metrics ("um I like this um".data) []).word_count = 5 ∧
      (extract_call_metrics ("um I like this um".data) []).filler_words = 3 ∧
      (extract_call_metrics ("um I like this um".data) []).filler_frequency = 3 / 5 := by
  have hw : (pySplitWs ("um I like this um".data)).length = 5 := rfl
  have hf : (List.map (fun w => pyCount w (pyLower ("um I like this um".data)))
      filler_words_list).sum = 3 := rfl
  refine ⟨rfl, rfl, ?_⟩
  simp only [extract_call_metrics, hw, hf]
  norm_num

/-! ## Score Parser (the `try` block of `analyze_interview`, app.py 179-190) -/

/-- Text before and after the first occurrence of the non-empty separator
`sep`, or `none` when `sep` does not occur (Python substring search). -/
def splitFirst (sep : PyStr) : PyStr → Option (PyStr × PyStr)
  | [] => none
  | c :: cs =>
    if sep.isPrefixOf (c :: cs) then some ([], (c :: cs).drop sep.length)
    else
      match splitFirst sep cs with
      | some p => some (c :: p.1, p.2)
      | none => none

/-- Python `sep in s` for a non-empty `sep`. -/
def pyContains (sep s : PyStr) : Bool := (splitFirst sep s).isSome

/-- `s.split(sep)[1]`: the piece strictly between the first and second
occurrence of `sep` (up to the end of the string when `sep` occurs only
once); `none` when `sep` does not occur at all (where Python would raise
`IndexError`). -/
def splitIndexOne (sep s : PyStr) : Option PyStr :=
  (splitFirst sep s).map fun p =>
    match splitFirst sep p.2 with
    | some q => q.1
    | none => p.2

/-- `s.split(sep)[0]`: the piece before the first occurrence of `sep`
(the whole string when `sep` is absent). -/
def splitIndexZero (sep s : PyStr) : PyStr :=
  match splitFirst sep s with
  | some p => p.1
  | none => s

/-- `str.strip()`: remove leading and trailing whitespace. -/
def pyStrip (s : PyStr) : PyStr :=
  ((s.dropWhile isPySpace).reverse.dropWhile isPySpace).reverse

/-- The numeric value of an ASCII decimal digit. -/
def digitVal? (c : Char) : Option Nat :=
  if '0' ≤ c ∧ c ≤ '9' then some (c.toNat - '0'.toNat) else none

/-- Continuation of a digit run: digits, with single underscores allowed
only between digits (`int("1_0")` is 10 in Python, `int("1__0")` and
`int("1_")` raise). -/
def pyDigitsAux : Nat → PyStr → Option Nat
  | acc, [] => some acc
  | acc, c :: rest =>
    if c = '_' then
      match rest with
      | [] => none
      | d :: rest2 =>
        match digitVal? d with
        | some dv => pyDigitsAux (acc * 10 + dv) rest2
        | none => none
    else
      match digitVal? c with
      | some dv => pyDigitsAux (acc * 10 + dv) rest
      | none => none

/-- A non-empty unsigned digit run (first character must be a digit). -/
def pyUDigits? : PyStr → Option Nat
  | [] => none
  | c :: rest =>
    match digitVal? c with
    | some d => pyDigitsAux d rest
    | none => none

/-- Python `int(str)`: strip whitespace, optional single sign, then a
non-empty digit run; `none` models a raised `ValueError`. -/
def pyInt? (s : PyStr) : Option Int :=
  match pyStrip s with
  | '+' :: rest => (pyUDigits? rest).map fun n => (n : Int)
  | '-' :: rest => (pyUDigits? rest).map fun n => -(n : Int)
  | other => (pyUDigits? other).map fun n => (n : Int)

def commLabel : PyStr := "communication:".data
def techLabel : PyStr := "technical skill:".data
def starLabel : PyStr := "star method usage:".data

/-- The `scores` dict: a key may be absent (`none`) because each label is
only assigned when its guard finds the label phrase. -/
structure Scores where
  communication : Option Int
  technical_skill : Option Int
  star_method_usage : Option Int
deriving DecidableEq, Repr

/-- The `except` fallback `{"communication": 0, "technical_skill": 0,
"star_method_usage": 0}` (app.py line 190). -/
def scoresFallback : Scores :=
  { communication := some 0, technical_skill := some 0, star_method_usage := some 0 }

/-- One guarded extraction step
`if label in lowered: int(lowered.split(label)[1].split("/")[0].strip())`.
Outer `none` models a raised exception from `int()` (caught by the
enclosing `except`); `some none` means the guard was false (label absent,
no assignment); `some (some v)` is a successful parse. -/
def tryLabel (label lowered : PyStr) : Option (Option Int) :=
  match splitIndexOne label lowered with
  | none => some none
  | some chunk =>
    match pyInt? (pyStrip (splitIndexZero ("/".data) chunk)) with
    | none => none
    | some v => some (some v)

/-- The score-parsing block of `analyze_interview` (app.py lines 179-190).
Input `none` models the scoring call having failed and returned `None`
(then `scoring_text.lower()` raises `AttributeError`, caught by the
`except`, which installs the uniform fallback).  If any attempted `int()`
parse raises, the whole dict is replaced by the fallback, discarding any
previously assigned keys — so the final value is the fallback whenever
any attempted parse fails, regardless of which one. -/
def parseScores (scoring_text : Option PyStr) : Scores :=
  match scoring_text with
  | none => scoresFallback
  | some t =>
    match tryLabel commLabel (pyLower t), tryLabel techLabel (pyLower t),
        tryLabel starLabel (pyLower t) with
    | some c, some te, some st =>
      { communication := c, technical_skill := te, star_method_usage := st }
    | _, _, _ => scoresFallback

/-- C6: on the well-formed example text the parser extracts 7, 8 and 6
(for each label, the whitespace-trimmed integer between the label and the
next `/`). -/
theorem parseScores_well_formed_example :
    parseScores
        (some ("Communication: 7/10 ... Technical Skill: 8/10 ... Star Method Usage: 6/10 ...".data)) =
      { communication := some 7, technical_skill := some 8, star_method_usage := some 6 } := by
  decide

/-- C2 counterexample: when the `communication:` label is missing but the
other two labels parse, the result is a partially populated dict (two of
three keys), not the uniform fallback — a missing label merely skips its
`if` block and raises nothing. -/
theorem parseScores_missing_label_partial :
    parseScores (some ("technical skill: 8/10 star method usage: 6/10".data)) =
        { communication := none, technical_skill := some 8, star_method_usage := some 6 } ∧
      parseScores (some ("technical skill: 8/10 star method usage: 6/10".data)) ≠
        scoresFallback := by
  decide

/-- C2 amended: the uniform all-zero fallback is installed exactly when
some attempted extraction raises — a present label whose following text
(up to the next `/`) does not parse as an integer, or a missing scoring
text; a merely missing label does not trigger the fallback and can leave
a partially populated dict. -/
theorem parseScores_fallback_on_parse_error (t : PyStr)
    (h : tryLabel commLabel (pyLower t) = none ∨ tryLabel techLabel (pyLower t) = none ∨
      tryLabel starLabel (pyLower t) = none) :
    parseScores (some t) = scoresFallback := by
  cases h1 : tryLabel commLabel (pyLower t) <;>
    cases h2 : tryLabel techLabel (pyLower t) <;>
      cases h3 : tryLabel starLabel (pyLower t) <;>
        simp_all [parseScores]

/-- Witness for C2 amended: `"communication: x/10"` has the label but a
non-numeric value, so the whole dict is the uniform fallback. -/
theorem parseScores_fallback_on_parse_error_witness :
    tryLabel commLabel (pyLower ("communication: x/10".data)) = none ∧
      parseScores (some ("communication: x/10".data)) = scoresFallback :=
  ⟨by decide,
    parseScores_fallback_on_parse_error ("communication: x/10".data) (Or.inl (by decide))⟩

/-! ## Analysis Orchestrator and Pipeline Coordinator
(`analyze_interview`, app.py 165-197; `process_interview`, app.py 256-277)

The chat boundary is an abstract function from a prompt to an optional
response text (`none` models `chat_with_transcript` returning `None` on
any API or transport failure).  To state the temporal claims, the
embedded functions additionally return the list of prompts issued to the
chat boundary, in order. -/

/-- `response or fallback` in Python: the fallback is used when the
response is `None` or the empty string (both falsy). -/
def pyOrElse (response : Option PyStr) (fallback : PyStr) : PyStr :=
  match response with
  | some t => if t.isEmpty then fallback else t
  | none => fallback

def strengthsPrompt (transcript : PyStr) : PyStr :=
  ("Analyze this interview transcript and identify the candidate\x27s top 3 strengths, citing evidence from their answers. Format as bullet points.\n\nTranscript:\n").data ++ transcript

def improvementsPrompt (transcript : PyStr) : PyStr :=
  ("Identify 3 areas where the candidate could improve their responses or communication style. Be constructive and specific.\n\nTranscript:\n").data ++ transcript

def scoringPrompt (transcript : PyStr) : PyStr :=
  ("Evaluate the candidate on Communication, Technical Skill, and STAR Method Usage for behavioral questions. Give a score out of 10 for each and a brief explanation.\n\nTranscript:\n").data ++ transcript

def followUpPrompt (transcript : PyStr) : PyStr :=
  ("Based on the transcript, suggest 3 insightful follow-up questions for the next interview stage.\n\nTranscript:\n").data ++ transcript

def strengthsFallback : PyStr := "Could not analyze strengths.".data
def improvementsFallback : PyStr := "Could not analyze areas for improvement.".data
def followUpFallback : PyStr := "Could not generate follow-up questions.".data

/-- The dict returned by `analyze_interview` (app.py 192-197). -/
structure AnalysisResult where
  strengths : PyStr
  improvements : PyStr
  scores : Scores
  follow_up : PyStr
deriving DecidableEq, Repr

/-- `analyze_interview` (app.py 165-197): four independent chat calls,
per-call fallbacks at the point of use, score parsing of the raw scoring
text.  The second component records the prompts issued to the chat
boundary, in order. -/
def analyze_interview (chat : PyStr → Option PyStr) (transcript : PyStr) :
    AnalysisResult × List PyStr :=
  let sp := strengthsPrompt transcript
  let ip := improvementsPrompt transcript
  let cp := scoringPrompt transcript
  let fp := followUpPrompt transcript
  let strengths := chat sp
  let improvements := chat ip
  let scoring_text := chat cp
  let follow_up := chat fp
  ({ strengths := pyOrElse strengths strengthsFallback
     improvements := pyOrElse improvements improvementsFallback
     scores := parseScores scoring_text
     follow_up := pyOrElse follow_up followUpFallback },
    [sp, ip, cp, fp])

/-- The fields extracted from a successful transcription response
(`result.get("text", "")`, `result.get("segments", [])`, defaults
modelled by total fields). -/
structure TranscriptionResult where
  text : PyStr
  segments : List Segment
deriving DecidableEq, Repr

/-- The session fields populated by one successful run. -/
structure RunBundle where
  transcript : PyStr
  segments : List Segment
  conversation_stages : Stages
  strengths : PyStr
  improvements : PyStr
  candidate_scores : Scores
  follow_up_questions : PyStr
deriving DecidableEq, Repr

/-- `process_interview` (app.py 256-277) over the transcription outcome
and the chat boundary.  A transcription failure surfaces
`Transcription Error: ...` and returns at once; otherwise the stages are
computed and the four analysis calls are made.  The second component
records the chat prompts issued during the run. -/
def process_interview (transcription : Except PyStr TranscriptionResult)
    (chat : PyStr → Option PyStr) : Except PyStr RunBundle × List PyStr :=
  match transcription with
  | .error e => (.error (("Transcription Error: ").data ++ e), [])
  | .ok r =>
    let a := analyze_interview chat r.text
    (.ok { transcript := r.text
           segments := r.segments
           conversation_stages := segment_conversation r.segments
           strengths := a.1.strengths
           improvements := a.1.improvements
           candidate_scores := a.1.scores
           follow_up_questions := a.1.follow_up },
      a.2)

/-- C8: a transcription failure halts the run, surfacing the failure, and
no chat-completion prompt is ever issued in that run (the issued-prompt
trace is empty). -/
theorem process_interview_halts_on_transcription_error
    (e : PyStr) (chat : PyStr → Option PyStr) :
    process_interview (.error e) chat =
      (.error (("Transcription Error: ").data ++ e), []) := rfl

lemma pyOrElse_some_of_ne_nil (t fb : PyStr) (h : t ≠ []) :
    pyOrElse (some t) fb = t := by
  cases t with
  | nil => exact absurd rfl h
  | cons a l => rfl

/-- C9: when exactly one of the four analysis calls fails (returns no
text) and the other three return non-empty texts, the result keeps the
boundary-provided values for the three surviving fields and substitutes
only the failed field with its fixed fallback (the fallback string for
the three text fields; for the scoring call, the parse of a missing text,
which is the uniform all-zero score dict).  The failure is absorbed
inside `analyze_interview` and never propagated. -/
theorem analyze_interview_isolates_single_failure
    (chat : PyStr → Option PyStr) (t rs ri rc rf : PyStr) :
    (chat (strengthsPrompt t) = none →
      chat (improvementsPrompt t) = some ri → ri ≠ [] →
      chat (scoringPrompt t) = some rc →
      chat (followUpPrompt t) = some rf → rf ≠ [] →
      (analyze_interview chat t).1 =
        { strengths := strengthsFallback, improvements := ri,
          scores := parseScores (some rc), follow_up := rf }) ∧
    (chat (strengthsPrompt t) = some rs → rs ≠ [] →
      chat (improvementsPrompt t) = none →
      chat (scoringPrompt t) = some rc →
      chat (followUpPrompt t) = some rf → rf ≠ [] →
      (analyze_interview chat t).1 =
        { strengths := rs, improvements := improvementsFallback,
          scores := parseScores (some rc), follow_up := rf }) ∧
    (chat (strengthsPrompt t) = some rs → rs ≠ [] →
      chat (improvementsPrompt t) = some ri → ri ≠ [] →
      chat (scoringPrompt t) = none →
      chat (followUpPrompt t) = some rf → rf ≠ [] →
      (analyze_interview chat t).1 =
        { strengths := rs, improvements := ri,
          scores := scoresFallback, follow_up := rf }) ∧
    (chat (strengthsPrompt t) = some rs → rs ≠ [] →
      chat (improvementsPrompt t) = some ri → ri ≠ [] →
      chat (scoringPrompt t) = some rc →
      chat (followUpPrompt t) = none →
      (analyze_interview chat t).1 =
        { strengths := rs, improvements := ri,
          scores := parseScores (some rc), follow_up := followUpFallback }) := by
  refine ⟨fun h1 h2 h2n h3 h4 h4n => ?_, fun h1 h1n h2 h3 h4 h4n => ?_,
    fun h1 h1n h2 h2n h3 h4 h4n => ?_, fun h1 h1n h2 h2n h3 h4 => ?_⟩ <;>
    simp only [analyze_interview, h1, h2, h3, h4] <;>
    simp [pyOrElse, pyOrElse_some_of_ne_nil, parseScores, *]

/-- A chat boundary on which exactly the strengths call fails. -/
def failStrengthsOracle : PyStr → Option PyStr :=
  fun p => if p = strengthsPrompt [] then none else some ['x']

/-- Witness for C9, first branch: only the strengths call fails, the
other three fields keep the boundary response. -/
theorem analyze_interview_isolates_single_failure_witness :
    failStrengthsOracle (strengthsPrompt []) = none ∧
      (analyze_interview failStrengthsOracle []).1 =
        { strengths := strengthsFallback, improvements := ['x'],
          scores := parseScores (some ['x']), follow_up := ['x'] } :=
  ⟨by decide,
    (analyze_interview_isolates_single_failure failStrengthsOracle [] [] ['x'] ['x'] ['x']).1
      (by decide) (by decide) (by decide) (by decide) (by decide) (by decide)⟩

end InterviewAnalyzer
